import Mathlib

/-!
Verification development for the UI layout / instance-encoding subsystem of
the Forte engine (`src/ui/style.rs`, `src/ui/mod.rs`, `src/ui/canvas.rs`,
`src/ui/elements.rs`).

Embedding conventions:
* `f32` scalars are modelled as exact rationals (`ℚ`); float rounding is not
  modelled.  The one place where the source divides by a quantity that can be
  zero — the corner/border radius normalisation in `update_ui` — is modelled
  with an explicit IEEE-style value type `FF` (finite / +∞ / -∞ / NaN) so that
  the zero-divisor behaviour of `f32` division is captured faithfully.
* GPU buffers are modelled as a store mapping buffer ids (`ℕ`) to their
  contents; `queue.write_buffer` becomes a store update, and
  `device.create_buffer_init` allocates a fresh id and counts the allocation.
* `cgmath::Vector2<f32>` becomes `Vec2`, colors become `Color` with four
  rational channels, and the `Transform` value built in `update_ui` is kept as
  its three components (position, z-rotation in degrees, scale); the packing
  of that transform into 4 matrix rows (`TransformRaw::from_generic`) is
  injective on these components, so the instance record stores them directly.
-/

/-- A 2-component vector of scalars, mirroring `cgmath::Vector2<f32>`. -/
structure Vec2 where
  x : ℚ
  y : ℚ
deriving DecidableEq

/-- A 3-component vector of scalars, mirroring `cgmath::Vector3<f32>`. -/
structure Vec3 where
  x : ℚ
  y : ℚ
  z : ℚ
deriving DecidableEq

/-- IEEE-style `f32` value at the granularity the radius computation needs:
a finite value (exact rational), the two infinities, or NaN.  Signed zero is
not modelled (the divisor produced by the source, `f32::max(size.x, size.y)`,
is `+0.0` in the case of interest). -/
inductive FF where
  | fin (q : ℚ)
  | inf
  | neginf
  | nan
deriving DecidableEq

/-- IEEE-754 division on `FF`.  For finite operands this is exact rational
division when the divisor is nonzero; division of a nonzero finite value by
(positive) zero gives the correspondingly signed infinity, and `0/0` gives
NaN, exactly as `f32` division behaves in the source. -/
def FF.div : FF → FF → FF
  | .nan, _ => .nan
  | _, .nan => .nan
  | .fin a, .fin b =>
      if b = 0 then
        if a = 0 then .nan else if 0 < a then .inf else .neginf
      else .fin (a / b)
  | .inf, .fin b => if 0 ≤ b then .inf else .neginf
  | .neginf, .fin b => if 0 ≤ b then .neginf else .inf
  | .fin _, .inf => .fin 0
  | .fin _, .neginf => .fin 0
  | .inf, .inf => .nan
  | .inf, .neginf => .nan
  | .neginf, .inf => .nan
  | .neginf, .neginf => .nan

/-- `Sizing` from `src/ui/style.rs`: a resolvable scalar. -/
inductive Sizing where
  | Auto
  | Px (px : ℚ)
  | PercentWidth (percent : ℚ)
  | PercentHeight (percent : ℚ)
deriving DecidableEq

/-- `Sizing::size` from `src/ui/style.rs`: resolve against dimensions. -/
def Sizing.size : Sizing → Vec2 → ℚ
  | .Auto, _ => 0
  | .Px px, _ => px
  | .PercentWidth percent, dimensions => dimensions.x * percent
  | .PercentHeight percent, dimensions => dimensions.y * percent

/-- `Sizing::is_set` from `src/ui/style.rs`: true iff not `Auto`. -/
def Sizing.is_set : Sizing → Bool
  | .Auto => false
  | _ => true

/-- `PositionSetting` from `src/ui/style.rs`. -/
inductive PositionSetting where
  | Parent
  | Absolute
deriving DecidableEq

/-- `Color` from `src/ui/style.rs`: four rational channels. -/
structure Color where
  red : ℚ
  green : ℚ
  blue : ℚ
  alpha : ℚ
deriving DecidableEq

/-- `Color::to_array` from `src/ui/style.rs`. -/
def Color.to_array (c : Color) : ℚ × ℚ × ℚ × ℚ := (c.red, c.green, c.blue, c.alpha)

/-- `Style` from `src/ui/style.rs`. -/
structure Style where
  position_setting : PositionSetting
  color : Color
  border_color : Color
  left : Sizing
  right : Sizing
  top : Sizing
  bottom : Sizing
  border : Sizing
  round : Sizing
  width : Sizing
  height : Sizing
  rotation : ℚ
deriving DecidableEq

/-- `Style::min_size` from `src/ui/style.rs`. -/
def Style.min_size (s : Style) (display_size : Vec2) : Vec2 :=
  ⟨s.width.size display_size, s.height.size display_size⟩

/-- `Style::left_set` from `src/ui/style.rs`. -/
def Style.left_set (s : Style) : Bool := s.left.is_set

/-- `Style::right_set` from `src/ui/style.rs`. -/
def Style.right_set (s : Style) : Bool := s.right.is_set

/-- `Style::top_set` from `src/ui/style.rs`. -/
def Style.top_set (s : Style) : Bool := s.top.is_set

/-- `Style::bottom_set` from `src/ui/style.rs`. -/
def Style.bottom_set (s : Style) : Bool := s.bottom.is_set

/-- `ElementInfo` from `src/ui/elements.rs`; texture and text handles are
opaque naturals. -/
inductive ElementInfo where
  | Container
  | Image (texture : ℕ)
  | Text (buffer : ℕ) (color : ℕ)
deriving DecidableEq

/-- `UIElement` from `src/ui/elements.rs`: style, content, the id of its
per-element GPU buffer, and its children. -/
inductive UIElement where
  | mk (style : Style) (info : ElementInfo) (buffer : ℕ) (children : List UIElement)

/-- Field accessor: the element's style. -/
def UIElement.style : UIElement → Style
  | .mk s _ _ _ => s

/-- Field accessor: the element's content variant. -/
def UIElement.info : UIElement → ElementInfo
  | .mk _ i _ _ => i

/-- Field accessor: the element's GPU buffer id. -/
def UIElement.buffer : UIElement → ℕ
  | .mk _ _ b _ => b

/-- Field accessor: the element's children. -/
def UIElement.children : UIElement → List UIElement
  | .mk _ _ _ c => c

/-- `UIElement::min_size` from `src/ui/elements.rs`. -/
def UIElement.min_size (e : UIElement) (display_size : Vec2) : Vec2 :=
  e.style.min_size display_size

/-- `UIRenderInfo` from `src/ui/mod.rs`: the parent's resolved box plus the
display size. -/
structure UIRenderInfo where
  position : Vec2
  size : Vec2
  display_size : Vec2
deriving DecidableEq

/-- `calculate_position_size` from `src/ui/mod.rs`: resolves an element's
position and size from its style, its parent's resolved box and the display
size.  The source mutates a local `position`; here each mutation step becomes
a shadowing `let`.  In the `bottom` branch the source first assigns
`position.y = offset` and then overwrites it in both match arms; that dead
store is reproduced. -/
def calculate_position_size (element : UIElement) (info : UIRenderInfo) :
    Vec2 × Vec2 :=
  let size := element.min_size info.display_size
  let position : Vec2 :=
    ⟨info.position.x + (info.size.x - size.x) * (1/2),
     info.position.y + (info.size.y - size.y) * (1/2)⟩
  let position :=
    if element.style.left_set then
      let offset := element.style.left.size info.display_size
      match element.style.position_setting with
      | .Parent => { position with x := info.position.x + offset }
      | .Absolute => { position with x := offset }
    else if element.style.right_set then
      let offset := element.style.right.size info.display_size
      match element.style.position_setting with
      | .Parent =>
          { position with x := info.position.x + info.size.x - size.x - offset }
      | .Absolute =>
          { position with x := info.display_size.x - size.x - offset }
    else position
  let position :=
    if element.style.top_set then
      let offset := element.style.top.size info.display_size
      match element.style.position_setting with
      | .Parent =>
          { position with y := info.position.y + info.size.y - size.y - offset }
      | .Absolute =>
          { position with y := info.display_size.y - size.y - offset }
    else if element.style.bottom_set then
      let offset := element.style.bottom.size info.display_size
      let position := { position with y := offset }
      match element.style.position_setting with
      | .Parent => { position with y := info.position.y + offset }
      | .Absolute => { position with y := offset }
    else position
  (position, size)

/-- The default `Style` (`#[derive(Default)]`): every `Sizing` is `Auto`,
the position setting is `Parent`, colors are opaque white, rotation 0. -/
def Style.default : Style :=
  { position_setting := .Parent
    color := ⟨1, 1, 1, 1⟩
    border_color := ⟨1, 1, 1, 1⟩
    left := .Auto
    right := .Auto
    top := .Auto
    bottom := .Auto
    border := .Auto
    round := .Auto
    width := .Auto
    height := .Auto
    rotation := 0 }

/-- The `Transform` value built in `update_ui` (`src/ui/mod.rs`): the source
constructs `Transform { position, rotation: Quaternion::euler_deg_z(r),
scale }`; the quaternion is kept as its defining z-angle in degrees. -/
structure TransformM where
  position : Vec3
  rotation_deg_z : ℚ
  scale : Vec3
deriving DecidableEq

/-- The `UIInstance` record written to each element's buffer by `update_ui`
(7 rows of 4 floats: 4 transform rows, fill color, border color, radii).
The 4 transform rows are `TransformRaw::from_generic(&transform).model`,
which is determined by (and determines) the transform's components, kept
here directly; the radii row holds the two normalised radii (its other two
entries are constant 0). -/
structure UIInstance where
  transform : TransformM
  color : ℚ × ℚ × ℚ × ℚ
  border_color : ℚ × ℚ × ℚ × ℚ
  corner_radius : FF
  border_radius : FF
deriving DecidableEq

/-- The per-element body of `update_ui` (`src/ui/mod.rs`) that builds the
instance record from the element's style, its resolved `position` and `size`,
the display size and the current `layer`. -/
def encode_instance (style : Style) (position size display_size : Vec2)
    (layer : ℚ) : UIInstance :=
  let pos_x := size.x * (1/2) + position.x
  let pos_y := size.y * (1/2) + position.y
  { transform :=
      { position :=
          ⟨2 * (pos_x / display_size.x) - 1,
           2 * (pos_y / display_size.y) - 1,
           layer⟩
        rotation_deg_z := style.rotation
        scale := ⟨size.x / display_size.x, size.y / display_size.y, 0⟩ }
    color := style.color.to_array
    border_color := style.border_color.to_array
    corner_radius :=
      FF.div (.fin (style.round.size display_size))
        (.fin (max size.x size.y))
    border_radius :=
      FF.div (.fin (style.border.size display_size))
        (.fin (max size.x size.y)) }

/-- The sequence of `queue.write_buffer` calls performed by `update_ui`
(`src/ui/mod.rs`) on a sibling list, in order.  For each element it writes
that element's instance record to the element's own buffer, then recurses
into the children with `new_info` (the element's resolved box) and
`layer - 0.05`, then continues with the next sibling. -/
def update_ui_writes : UIRenderInfo → ℚ → List UIElement → List (ℕ × UIInstance)
  | _, _, [] => []
  | info, layer, e :: es =>
      let ps := calculate_position_size e info
      let new_info : UIRenderInfo := ⟨ps.1, ps.2, info.display_size⟩
      (e.buffer, encode_instance e.style ps.1 ps.2 info.display_size layer) ::
        (update_ui_writes new_info (layer - 1/20) e.children ++
          update_ui_writes info layer es)
termination_by _ _ es => sizeOf es
decreasing_by
  · have h : sizeOf e.children < sizeOf e := by
      cases e with
      | mk s i b c => simp [UIElement.children]
    simp
    omega
  · simp

/-- The GPU-side contents of all buffers: buffer id to contents.  A buffer
holds a list of instance records (per-element buffers hold one). -/
def BufferStore : Type := ℕ → Option (List UIInstance)

/-- Apply a list of `write_buffer` calls in order. -/
def applyWrites (ws : List (ℕ × UIInstance)) (s : BufferStore) : BufferStore :=
  ws.foldl (fun s w => Function.update s w.1 (some [w.2])) s

/-- `update_ui` from `src/ui/mod.rs` as a transformer of the GPU buffer
store: it computes every element's instance record and writes it into that
element's buffer. -/
def update_ui (info : UIRenderInfo) (layer : ℚ) (elements : List UIElement)
    (s : BufferStore) : BufferStore :=
  applyWrites (update_ui_writes info layer elements) s

/-- The GPU device/queue state seen by `UICanvas` (`src/ui/canvas.rs`):
buffer contents by id, the next fresh buffer id, and a count of
`create_buffer_init` calls (to observe reallocation). -/
structure GPUState where
  nextId : ℕ
  store : ℕ → Option (List UIInstance)
  createCount : ℕ

/-- `device.create_buffer_init`: allocates a fresh buffer holding exactly
`contents` and returns its id. -/
def GPUState.create_buffer_init (s : GPUState) (contents : List UIInstance) :
    ℕ × GPUState :=
  (s.nextId,
   { nextId := s.nextId + 1
     store := Function.update s.store s.nextId (some contents)
     createCount := s.createCount + 1 })

/-- `queue.write_buffer(buffer, 0, contents)`: overwrites a buffer's
contents in place. -/
def GPUState.write_buffer (s : GPUState) (b : ℕ) (contents : List UIInstance) :
    GPUState :=
  { s with store := Function.update s.store b (some contents) }

/-- `UICanvas` from `src/ui/canvas.rs`: a shared buffer id plus the element
count of the previous frame. -/
structure UICanvas where
  buffer : ℕ
  cur_size : ℕ
deriving DecidableEq

/-- `UICanvas::new_with_contents` from `src/ui/canvas.rs`. -/
def UICanvas.new_with_contents (s : GPUState) (contents : List UIInstance) :
    UICanvas × GPUState :=
  let r := s.create_buffer_init contents
  (⟨r.1, contents.length⟩, r.2)

/-- `UICanvas::update` from `src/ui/canvas.rs`: if the new contents have the
same length as `cur_size`, overwrite the existing buffer in place; otherwise
create a new buffer holding exactly the contents and record its length. -/
def UICanvas.update (c : UICanvas) (s : GPUState) (contents : List UIInstance) :
    UICanvas × GPUState :=
  if c.cur_size = contents.length then
    (c, s.write_buffer c.buffer contents)
  else
    let r := s.create_buffer_init contents
    (⟨r.1, contents.length⟩, r.2)

/-- Proof helper: the last write to buffer `k` in a write list, if any. -/
def lastWrite (ws : List (ℕ × UIInstance)) (k : ℕ) : Option UIInstance :=
  match ws with
  | [] => none
  | w :: ws =>
      match lastWrite ws k with
      | some v => some v
      | none => if w.1 = k then some w.2 else none

/-- Proof helper: applying a write list leaves buffer `k` holding the last
write to `k`, or its previous contents when `k` is never written. -/
theorem applyWrites_apply (ws : List (ℕ × UIInstance)) (s : BufferStore) (k : ℕ) :
    applyWrites ws s k =
      match lastWrite ws k with
      | some v => some [v]
      | none => s k := by
  induction ws generalizing s with
  | nil => rfl
  | cons w ws ih =>
      show applyWrites ws (Function.update s w.1 (some [w.2])) k = _
      rw [ih]
      cases h : lastWrite ws k with
      | some v => simp [lastWrite, h]
      | none =>
          simp only [lastWrite, h, Function.update_apply]
          by_cases hk : w.1 = k
          · subst hk; simp
          · simp [hk, Ne.symm hk]

/-- C8: `Sizing` resolution maps `Auto` to 0, `Px p` to `p`, `PercentWidth p`
to `dimensions.width * p` and `PercentHeight p` to `dimensions.height * p`,
and `is_set` is true for every variant except `Auto`. -/
theorem sizing_resolution_spec (d : Vec2) (p : ℚ) :
    Sizing.Auto.size d = 0 ∧
    (Sizing.Px p).size d = p ∧
    (Sizing.PercentWidth p).size d = d.x * p ∧
    (Sizing.PercentHeight p).size d = d.y * p ∧
    Sizing.Auto.is_set = false ∧
    (Sizing.Px p).is_set = true ∧
    (Sizing.PercentWidth p).is_set = true ∧
    (Sizing.PercentHeight p).is_set = true :=
  ⟨rfl, rfl, rfl, rfl, rfl, rfl, rfl, rfl⟩

/-- C5: when the right edge is set and the left edge is `Auto`, the resolved
x position is `parent.origin.x + parent.size.x - size.x - right_offset` in
`Parent` mode and `display.x - size.x - right_offset` in `Absolute` mode
(where `size` is the element's resolved size). -/
theorem right_anchor_resolution (e : UIElement) (i : UIRenderInfo)
    (hr : e.style.right_set = true) (hl : e.style.left_set = false) :
    (e.style.position_setting = .Parent →
        (calculate_position_size e i).1.x =
          i.position.x + i.size.x - (calculate_position_size e i).2.x -
            e.style.right.size i.display_size) ∧
    (e.style.position_setting = .Absolute →
        (calculate_position_size e i).1.x =
          i.display_size.x - (calculate_position_size e i).2.x -
            e.style.right.size i.display_size) := by
  constructor <;> intro hps <;>
    simp only [calculate_position_size, hl, hr, hps, Bool.false_eq_true, if_false, if_true] <;>
    split <;> (try split) <;> simp

/-- C5 witness: `right=Px(10)`, `width=Px(100)`, `Parent` mode, inside a
parent at origin `(0,0)` of size `(400,400)`: the resolved x position is
`400 - 100 - 10 = 290`. -/
theorem right_anchor_witness :
    (calculate_position_size
        (UIElement.mk { Style.default with right := .Px 10, width := .Px 100 } .Container 0 [])
        ⟨⟨0, 0⟩, ⟨400, 400⟩, ⟨400, 400⟩⟩).1.x = 290 := by
  have h := (right_anchor_resolution
    (UIElement.mk { Style.default with right := .Px 10, width := .Px 100 } .Container 0 [])
    ⟨⟨0, 0⟩, ⟨400, 400⟩, ⟨400, 400⟩⟩ rfl rfl).1 rfl
  rw [h]
  norm_num [calculate_position_size, Style.default, UIElement.min_size, UIElement.style,
    Style.min_size, Sizing.size]

/-- C1 counterexample: an element with `left=Px(10)`, `top=Px(10)`,
`PositionSetting::Parent` inside a parent at origin `(0,0)` of size
`(400,400)` (display `(400,400)`) does NOT resolve to position `(10,10)`:
the code resolves it to `(10, 390)`, because `top` anchors from the far
edge (`y = parent.origin.y + parent.size.y - size.y - top`), mirroring the
`right` rule rather than the `left` rule. -/
theorem left_top_anchor_counterexample :
    (calculate_position_size
        (UIElement.mk { Style.default with left := .Px 10, top := .Px 10 } .Container 0 [])
        ⟨⟨0, 0⟩, ⟨400, 400⟩, ⟨400, 400⟩⟩).1 ≠ ⟨10, 10⟩ := by
  intro h
  have hy := congrArg Vec2.y h
  norm_num [calculate_position_size, Style.default, UIElement.min_size, UIElement.style,
    Style.min_size, Style.left_set, Style.right_set, Style.top_set, Style.bottom_set,
    Sizing.is_set, Sizing.size] at hy

/-- C1 (amended): with `left=Px(l)`, `top=Px(t)` and `PositionSetting::Parent`,
the element resolves to `x = parent.origin.x + l` and
`y = parent.origin.y + parent.size.y - size.y - t`; the vertical rule is not
symmetric to the `left` rule but mirrors the `right` rule.  `top` still takes
priority over `bottom`: the result is independent of the `bottom` field
(which is left arbitrary here).  At the claim's concrete input the position
is `(10, 390)`, not `(10, 10)`. -/
theorem left_top_parent_anchor (e : UIElement) (i : UIRenderInfo) (l t : ℚ)
    (hps : e.style.position_setting = .Parent)
    (hl : e.style.left = .Px l) (ht : e.style.top = .Px t) :
    (calculate_position_size e i).1 =
      ⟨i.position.x + l,
       i.position.y + i.size.y - (calculate_position_size e i).2.y - t⟩ := by
  simp only [calculate_position_size, Style.left_set, Style.top_set, hl, ht, hps,
    Sizing.is_set, Sizing.size, if_true]

/-- C1 witness: the amended anchor law at the claim's concrete input:
`left=Px(10), top=Px(10)`, `Parent`, parent at `(0,0)` size `(400,400)`,
resolves to `(10, 390)`. -/
theorem left_top_parent_anchor_witness :
    (calculate_position_size
        (UIElement.mk { Style.default with left := .Px 10, top := .Px 10 } .Container 0 [])
        ⟨⟨0, 0⟩, ⟨400, 400⟩, ⟨400, 400⟩⟩).1 = ⟨10, 390⟩ := by
  have h := left_top_parent_anchor
    (UIElement.mk { Style.default with left := .Px 10, top := .Px 10 } .Container 0 [])
    ⟨⟨0, 0⟩, ⟨400, 400⟩, ⟨400, 400⟩⟩ 10 10 rfl rfl rfl
  rw [h]
  norm_num [calculate_position_size, Style.default, UIElement.min_size, UIElement.style,
    Style.min_size, Sizing.size]

/-- C2 counterexample: an `Absolute` element with no edge set is centered in
its parent, so its resolved position DOES depend on the parent's origin:
two parent boxes that differ only in origin (`(0,0)` vs `(100,0)`, same size
`(400,400)` and display `(800,600)`) give different child positions
(`x = 200` vs `x = 300`). -/
theorem absolute_independence_counterexample :
    (UIElement.mk { Style.default with position_setting := .Absolute }
        .Container 0 []).style.position_setting = .Absolute ∧
    (⟨⟨0, 0⟩, ⟨400, 400⟩, ⟨800, 600⟩⟩ : UIRenderInfo).size =
      (⟨⟨100, 0⟩, ⟨400, 400⟩, ⟨800, 600⟩⟩ : UIRenderInfo).size ∧
    (⟨⟨0, 0⟩, ⟨400, 400⟩, ⟨800, 600⟩⟩ : UIRenderInfo).display_size =
      (⟨⟨100, 0⟩, ⟨400, 400⟩, ⟨800, 600⟩⟩ : UIRenderInfo).display_size ∧
    (calculate_position_size
        (UIElement.mk { Style.default with position_setting := .Absolute } .Container 0 [])
        ⟨⟨0, 0⟩, ⟨400, 400⟩, ⟨800, 600⟩⟩).1 ≠
      (calculate_position_size
        (UIElement.mk { Style.default with position_setting := .Absolute } .Container 0 [])
        ⟨⟨100, 0⟩, ⟨400, 400⟩, ⟨800, 600⟩⟩).1 := by
  refine ⟨rfl, rfl, rfl, ?_⟩
  intro h
  have hx := congrArg Vec2.x h
  norm_num [calculate_position_size, Style.default, UIElement.min_size, UIElement.style,
    Style.min_size, Style.left_set, Style.right_set, Style.top_set, Style.bottom_set,
    Sizing.is_set, Sizing.size] at hx

/-- C2 (amended): for an `Absolute` element the resolved position is
independent of the parent's resolved origin PROVIDED at least one horizontal
edge (`left` or `right`) and at least one vertical edge (`top` or `bottom`)
is set; an axis with no edge set falls back to centering in the parent and
does follow the parent's origin. -/
theorem absolute_position_independent_of_parent_origin (e : UIElement)
    (i₁ i₂ : UIRenderInfo)
    (hps : e.style.position_setting = .Absolute)
    (hx : e.style.left_set = true ∨ e.style.right_set = true)
    (hy : e.style.top_set = true ∨ e.style.bottom_set = true)
    (hsize : i₁.size = i₂.size) (hdisp : i₁.display_size = i₂.display_size) :
    calculate_position_size e i₁ = calculate_position_size e i₂ := by
  simp only [calculate_position_size, hps, hdisp, hsize]
  rcases hx with hx | hx <;> rcases hy with hy | hy <;>
    simp [hx, hy]
  all_goals (cases hL : e.style.left_set <;> simp [hL, hx, hy])

/-- C2 witness: an `Absolute` element with `left=Px(15)` and `top=Px(20)`
resolves identically under parents at origin `(0,0)` and `(100,0)` (same
size and display size). -/
theorem absolute_independence_witness :
    calculate_position_size
        (UIElement.mk
          { Style.default with position_setting := .Absolute, left := .Px 15, top := .Px 20 }
          .Container 0 [])
        ⟨⟨0, 0⟩, ⟨400, 400⟩, ⟨800, 600⟩⟩ =
      calculate_position_size
        (UIElement.mk
          { Style.default with position_setting := .Absolute, left := .Px 15, top := .Px 20 }
          .Container 0 [])
        ⟨⟨100, 0⟩, ⟨400, 400⟩, ⟨800, 600⟩⟩ :=
  absolute_position_independent_of_parent_origin _ _ _ rfl (Or.inl rfl) (Or.inl rfl) rfl rfl

/-- C3 (code bug): the division by `max(size.x, size.y)` in `update_ui` is
NOT special-cased.  For an element whose resolved size is `(0,0)` (width and
height `Auto`) with `round = Px 20` and `border = Auto`, the pass encodes a
corner radius of `20 / 0 = +∞` and a border radius of `0 / 0 = NaN` into the
instance record — not the radius `0` the claim (and the spec's error-handling
section) requires. -/
theorem zero_size_radius_encoding :
    (update_ui_writes ⟨⟨0, 0⟩, ⟨400, 400⟩, ⟨400, 400⟩⟩ (1/2)
        [UIElement.mk { Style.default with round := .Px 20 } .Container 7 []]).map
        (fun w => (w.2.corner_radius, w.2.border_radius)) = [(FF.inf, FF.nan)] ∧
    FF.inf ≠ FF.fin 0 ∧ FF.nan ≠ FF.fin 0 := by
  refine ⟨?_, by simp, by simp⟩
  norm_num [update_ui_writes, encode_instance, calculate_position_size, Style.default,
    UIElement.min_size, UIElement.style, UIElement.buffer, UIElement.children,
    Style.min_size, Style.left_set, Style.right_set, Style.top_set, Style.bottom_set,
    Sizing.is_set, Sizing.size, FF.div, Color.to_array]

/-- C4 counterexample: resolved sizes are not always nonnegative: an element
with `width = Px(-5)` resolves to `size.x = -5 < 0` (no clamping). -/
theorem resolved_size_nonneg_counterexample :
    (calculate_position_size
        (UIElement.mk { Style.default with width := .Px (-5) } .Container 0 [])
        ⟨⟨0, 0⟩, ⟨400, 400⟩, ⟨800, 600⟩⟩).2.x < 0 := by
  norm_num [calculate_position_size, Style.default, UIElement.min_size, UIElement.style,
    Style.min_size, Style.left_set, Style.right_set, Style.top_set, Style.bottom_set,
    Sizing.is_set, Sizing.size]

/-- C4 (amended): the resolved size is nonnegative whenever the style's
width and height resolve to nonnegative values against the display size;
negative resolutions (e.g. negative `Px`) propagate unchanged into the
resolved size. -/
theorem resolved_size_nonneg (e : UIElement) (i : UIRenderInfo)
    (hw : 0 ≤ e.style.width.size i.display_size)
    (hh : 0 ≤ e.style.height.size i.display_size) :
    0 ≤ (calculate_position_size e i).2.x ∧
    0 ≤ (calculate_position_size e i).2.y :=
  ⟨hw, hh⟩

/-- C4 witness: an element with `width = Px 100`, `height = Px 50` has
nonnegative resolved size. -/
theorem resolved_size_nonneg_witness :
    0 ≤ (calculate_position_size
        (UIElement.mk { Style.default with width := .Px 100, height := .Px 50 } .Container 0 [])
        ⟨⟨0, 0⟩, ⟨400, 400⟩, ⟨800, 600⟩⟩).2.x ∧
    0 ≤ (calculate_position_size
        (UIElement.mk { Style.default with width := .Px 100, height := .Px 50 } .Container 0 [])
        ⟨⟨0, 0⟩, ⟨400, 400⟩, ⟨800, 600⟩⟩).2.y := by
  exact resolved_size_nonneg _ _ (by norm_num [Style.default, UIElement.style, Sizing.size])
    (by norm_num [Style.default, UIElement.style, Sizing.size])

/-- C7: the encoded instance transform's translation is
`(2*(position.x + size.x*0.5)/display.x - 1, 2*(position.y + size.y*0.5)/display.y - 1, layer)`
— the same affine map on both axes, i.e. no y flip — and its scale is
`(size.x/display.x, size.y/display.y, 0)`. -/
theorem instance_transform_components (style : Style)
    (position size display_size : Vec2) (layer : ℚ) :
    (encode_instance style position size display_size layer).transform.position =
      ⟨2 * (position.x + size.x * (1/2)) / display_size.x - 1,
       2 * (position.y + size.y * (1/2)) / display_size.y - 1,
       layer⟩ ∧
    (encode_instance style position size display_size layer).transform.scale =
      ⟨size.x / display_size.x, size.y / display_size.y, 0⟩ := by
  refine ⟨?_, rfl⟩
  simp only [encode_instance, Vec3.mk.injEq]
  refine ⟨by ring, by ring, trivial⟩

/-- C9: running the layout-and-encoding pass a second time on the same
unchanged element list with the same render info and layer leaves every GPU
buffer exactly as the first run left it: the records written depend only on
the tree and the display size, never on prior buffer contents. -/
theorem update_ui_idempotent (info : UIRenderInfo) (layer : ℚ)
    (elements : List UIElement) (s : BufferStore) :
    update_ui info layer elements (update_ui info layer elements s) =
      update_ui info layer elements s := by
  funext k
  simp only [update_ui, applyWrites_apply]
  cases h : lastWrite (update_ui_writes info layer elements) k <;> simp [h]

/-- C10: the resolved size equals the style's width and height resolved
against the display size alone; any parent box with the same display size
yields the same resolved size (percent sizings are fractions of the display,
never of the parent, and no clamping to the parent box occurs). -/
theorem resolved_size_is_style_size (e : UIElement) (i : UIRenderInfo) :
    (calculate_position_size e i).2 =
      ⟨e.style.width.size i.display_size, e.style.height.size i.display_size⟩ ∧
    ∀ i' : UIRenderInfo, i'.display_size = i.display_size →
      (calculate_position_size e i').2 = (calculate_position_size e i).2 := by
  constructor
  · rfl
  · intro i' h
    show e.min_size i'.display_size = e.min_size i.display_size
    rw [h]

/-- C10 witness: an element with `width = PercentWidth(1/2)` resolves to the
same size (`(400, 0)`) under two parents with different origins and sizes
but the same display size `(800, 600)`. -/
theorem resolved_size_is_style_size_witness :
    (calculate_position_size
        (UIElement.mk { Style.default with width := .PercentWidth (1/2) } .Container 0 [])
        ⟨⟨0, 0⟩, ⟨400, 400⟩, ⟨800, 600⟩⟩).2 =
      ⟨(({ Style.default with width := .PercentWidth (1/2) } : Style)).width.size ⟨800, 600⟩,
       (({ Style.default with width := .PercentWidth (1/2) } : Style)).height.size ⟨800, 600⟩⟩ ∧
    (calculate_position_size
        (UIElement.mk { Style.default with width := .PercentWidth (1/2) } .Container 0 [])
        ⟨⟨33, 44⟩, ⟨20, 20⟩, ⟨800, 600⟩⟩).2 =
      (calculate_position_size
        (UIElement.mk { Style.default with width := .PercentWidth (1/2) } .Container 0 [])
        ⟨⟨0, 0⟩, ⟨400, 400⟩, ⟨800, 600⟩⟩).2 := by
  have h := resolved_size_is_style_size
    (UIElement.mk { Style.default with width := .PercentWidth (1/2) } .Container 0 [])
    ⟨⟨0, 0⟩, ⟨400, 400⟩, ⟨800, 600⟩⟩
  exact ⟨h.1, h.2 ⟨⟨33, 44⟩, ⟨20, 20⟩, ⟨800, 600⟩⟩ rfl⟩

/-- C6: `UICanvas::update` overwrites the existing buffer in place (same
handle, same `cur_size`, no `create_buffer` call) when the new contents have
the same length as the stored `cur_size`; otherwise it creates exactly one
new buffer holding exactly the contents and records their length.
Consequently a second update whose contents have the same length as the
first never allocates and keeps the buffer handle. -/
theorem canvas_update_spec (c : UICanvas) (s : GPUState) (xs : List UIInstance) :
    (xs.length = c.cur_size →
      (c.update s xs).1 = c ∧
      (c.update s xs).2.createCount = s.createCount ∧
      (c.update s xs).2.store c.buffer = some xs) ∧
    (xs.length ≠ c.cur_size →
      (c.update s xs).1.cur_size = xs.length ∧
      (c.update s xs).2.createCount = s.createCount + 1 ∧
      (c.update s xs).2.store (c.update s xs).1.buffer = some xs) ∧
    (∀ ys : List UIInstance, ys.length = xs.length →
      ((c.update s xs).1.update (c.update s xs).2 ys).2.createCount =
        (c.update s xs).2.createCount ∧
      ((c.update s xs).1.update (c.update s xs).2 ys).1.buffer =
        (c.update s xs).1.buffer) := by
  refine ⟨?_, ?_, ?_⟩
  · intro h
    simp [UICanvas.update, h.symm, GPUState.write_buffer]
  · intro h
    have hc : ¬(c.cur_size = xs.length) := fun hh => h hh.symm
    simp [UICanvas.update, hc, GPUState.create_buffer_init]
  · intro ys hlen
    have hcur : (c.update s xs).1.cur_size = ys.length := by
      rw [hlen]
      by_cases h : c.cur_size = xs.length <;>
        simp [UICanvas.update, h, GPUState.create_buffer_init]
    rcases hu : c.update s xs with ⟨c₁, s₁⟩
    rw [hu] at hcur
    simp only [Prod.fst] at hcur
    simp [UICanvas.update, hcur, GPUState.write_buffer]

/-- C6 witness: with `cur_size = 0` and empty contents the canvas and the
allocation count are unchanged; with `cur_size = 2` and empty contents
exactly one allocation happens; a second equal-length update after the
first performs no allocation. -/
theorem canvas_update_witness :
    (((⟨3, 0⟩ : UICanvas).update ⟨5, fun _ => none, 4⟩ []).1 = (⟨3, 0⟩ : UICanvas) ∧
     ((⟨3, 0⟩ : UICanvas).update ⟨5, fun _ => none, 4⟩ []).2.createCount = 4) ∧
    ((⟨3, 2⟩ : UICanvas).update ⟨5, fun _ => none, 4⟩ []).2.createCount = 5 ∧
    (((⟨3, 0⟩ : UICanvas).update ⟨5, fun _ => none, 4⟩ []).1.update
        ((⟨3, 0⟩ : UICanvas).update ⟨5, fun _ => none, 4⟩ []).2 []).2.createCount =
      ((⟨3, 0⟩ : UICanvas).update ⟨5, fun _ => none, 4⟩ []).2.createCount := by
  have h1 := canvas_update_spec ⟨3, 0⟩ ⟨5, fun _ => none, 4⟩ []
  have h2 := canvas_update_spec ⟨3, 2⟩ ⟨5, fun _ => none, 4⟩ []
  refine ⟨⟨(h1.1 rfl).1, (h1.1 rfl).2.1⟩, ?_, (h1.2.2 [] rfl).1⟩
  exact (h2.2.1 (by norm_num)).2.1
